import Mathlib

/-!
Shallow embedding of the PPU and MMC3 mapper core of the neso-rs emulator
(src/ppu/mod.rs and src/mapper/mmc3.rs), with theorems settling the frozen
claims about the natural-language specification.

Machine integers are modelled as Nat with explicit wrap-arounds where the
source wraps; fallible code (Rust panics) returns Option.  Parts of the
repository that are referenced from the two source files but whose own
source is not available (the Cartridge accessors and the PPU register
helper methods in ppu/registers.rs) are modelled from the specification
and are marked as such in their doc comments.
-/

set_option maxRecDepth 4096

namespace Neso

/-- Mirroring modes, from ppu/mod.rs (enum MirroringMode). -/
inductive MirroringMode where
  | Horizontal
  | Vertical
  | Lower
  | Upper
  | None
deriving DecidableEq, Repr

/-- Numeric value of a mirroring mode, matching the Rust enum discriminants
(Horizontal = 0, Vertical = 1, Lower = 2, Upper = 3, None = 4). -/
def MirroringMode.toNat : MirroringMode → Nat
  | .Horizontal => 0
  | .Vertical => 1
  | .Lower => 2
  | .Upper => 3
  | .None => 4

/-- MIRRORING_MODE_TABLE from ppu/mod.rs: for each mode (rows of four),
maps logical nametable index to physical 1 KiB VRAM slot. -/
def MIRRORING_MODE_TABLE : List Nat :=
  [0, 0, 1, 1,
   0, 1, 0, 1,
   0, 0, 0, 0,
   1, 1, 1, 1,
   0, 1, 2, 3]

/-- Modelled from the spec: the Cartridge component (its source file is not
under src/).  Per the spec it is an opaque backing store: three byte blobs
(PRG-ROM, PRG-RAM, CHR-ROM/RAM), a declared mirroring hint, and a CHR-RAM
flag; bank counts are derived from the PRG-ROM length. -/
structure Cartridge where
  prg_rom : Nat → Nat
  prg_rom_length : Nat
  prg_ram : Nat → Nat
  chr : Nat → Nat
  has_chr_ram : Bool
  mirroring_mode : MirroringMode

/-- Modelled from the spec: Cartridge.read_prg_rom reads the PRG-ROM blob. -/
def Cartridge.read_prg_rom (c : Cartridge) (off : Nat) : Nat := c.prg_rom off

/-- Modelled from the spec: Cartridge.read_prg_ram reads the PRG-RAM blob. -/
def Cartridge.read_prg_ram (c : Cartridge) (off : Nat) : Nat := c.prg_ram off

/-- Modelled from the spec: Cartridge.write_prg_ram writes the PRG-RAM blob. -/
def Cartridge.write_prg_ram (c : Cartridge) (off v : Nat) : Cartridge :=
  { c with prg_ram := fun i => if i = off then v else c.prg_ram i }

/-- Modelled from the spec: Cartridge.read_chr_rom reads the CHR blob. -/
def Cartridge.read_chr_rom (c : Cartridge) (off : Nat) : Nat := c.chr off

/-- Modelled from the spec: Cartridge.write_chr_rom writes the CHR blob,
a no-op when the cartridge holds CHR-ROM rather than CHR-RAM. -/
def Cartridge.write_chr_rom (c : Cartridge) (off v : Nat) : Cartridge :=
  if c.has_chr_ram then
    { c with chr := fun i => if i = off then v else c.chr i }
  else c

/-- Modelled from the spec: Cartridge.prg_rom_len returns the PRG-ROM length. -/
def Cartridge.prg_rom_len (c : Cartridge) : Nat := c.prg_rom_length

/-- PrgRomBankMode from mapper/mmc3.rs. -/
inductive PrgRomBankMode where
  | TwoSwitchTwoFix
  | FixTwoSwitchFix
deriving DecidableEq, Repr

/-- ChrRomBankMode from mapper/mmc3.rs. -/
inductive ChrRomBankMode where
  | Two2KFour1K
  | Four1KTwo2K
deriving DecidableEq, Repr

/-- Registers of the MMC3 mapper, from mapper/mmc3.rs (struct Registers).
Byte-sized fields are Nat; bank_data is an index-to-value map over 0..7. -/
structure MMC3Registers where
  mirroring_mode : MirroringMode
  prg_rom_bank_mode : PrgRomBankMode
  chr_rom_bank_mode : ChrRomBankMode
  prg_ram_writes_enabled : Bool
  prg_ram_enabled : Bool
  irq_latch : Nat
  irq_counter : Nat
  irq_enabled : Bool
  bank_data : Nat → Nat
  current_bank : Nat

/-- Registers::new from mapper/mmc3.rs. -/
def MMC3Registers.new : MMC3Registers where
  mirroring_mode := .Vertical
  prg_rom_bank_mode := .TwoSwitchTwoFix
  chr_rom_bank_mode := .Two2KFour1K
  prg_ram_writes_enabled := true
  prg_ram_enabled := true
  irq_latch := 0
  irq_counter := 0
  irq_enabled := false
  bank_data := fun _ => 0
  current_bank := 0

/-- Registers::write_bank_select from mapper/mmc3.rs: bit 6 selects the
PRG bank mode, bit 7 the CHR bank mode, bits 0..2 the current bank. -/
def MMC3Registers.write_bank_select (r : MMC3Registers) (val : Nat) : MMC3Registers :=
  { r with
    prg_rom_bank_mode :=
      if val &&& 0x40 = 0 then .TwoSwitchTwoFix else .FixTwoSwitchFix
    chr_rom_bank_mode :=
      if val &&& 0x80 = 0 then .Two2KFour1K else .Four1KTwo2K
    current_bank := val &&& 0x07 }

/-- Registers::write_bank_data from mapper/mmc3.rs. -/
def MMC3Registers.write_bank_data (r : MMC3Registers) (val : Nat) : MMC3Registers :=
  { r with bank_data := fun i => if i = r.current_bank then val else r.bank_data i }

/-- Registers::write_mirroring_mode from mapper/mmc3.rs. -/
def MMC3Registers.write_mirroring_mode (r : MMC3Registers) (val : Nat) : MMC3Registers :=
  { r with mirroring_mode := if val &&& 0x01 = 0 then .Vertical else .Horizontal }

/-- Registers::write_prg_ram_protect from mapper/mmc3.rs. -/
def MMC3Registers.write_prg_ram_protect (r : MMC3Registers) (val : Nat) : MMC3Registers :=
  { r with
    prg_ram_writes_enabled := val &&& 0x40 = 0
    prg_ram_enabled := val &&& 0x80 ≠ 0 }

/-- Registers::get_chr_rom_address from mapper/mmc3.rs; none models the
panic arm for an out-of-range address. -/
def MMC3Registers.get_chr_rom_address (r : MMC3Registers) (addr : Nat) : Option Nat :=
  match r.chr_rom_bank_mode with
  | .Two2KFour1K =>
    if addr ≤ 0x07FF then some ((r.bank_data 0 &&& 0xFE) * 0x400 + addr)
    else if addr ≤ 0x0FFF then some ((r.bank_data 1 &&& 0xFE) * 0x400 + addr - 0x0800)
    else if addr ≤ 0x13FF then some (r.bank_data 2 * 0x400 + addr - 0x1000)
    else if addr ≤ 0x17FF then some (r.bank_data 3 * 0x400 + addr - 0x1400)
    else if addr ≤ 0x1BFF then some (r.bank_data 4 * 0x400 + addr - 0x1800)
    else if addr ≤ 0x1FFF then some (r.bank_data 5 * 0x400 + addr - 0x1C00)
    else none
  | .Four1KTwo2K =>
    if addr ≤ 0x03FF then some (r.bank_data 2 * 0x400 + addr)
    else if addr ≤ 0x07FF then some (r.bank_data 3 * 0x400 + addr - 0x0400)
    else if addr ≤ 0x0BFF then some (r.bank_data 4 * 0x400 + addr - 0x0800)
    else if addr ≤ 0x0FFF then some (r.bank_data 5 * 0x400 + addr - 0x0C00)
    else if addr ≤ 0x17FF then some ((r.bank_data 0 &&& 0xFE) * 0x400 + addr - 0x1000)
    else if addr ≤ 0x1FFF then some ((r.bank_data 1 &&& 0xFE) * 0x400 + addr - 0x1800)
    else none

/-- Registers::get_prg_rom_address from mapper/mmc3.rs; none models the
panic arm.  The source subtracts on usize; the fixed banks use
prg_rom_banks - 2 and prg_rom_banks - 1 which only differ from Nat
subtraction when the cartridge has fewer than two banks. -/
def MMC3Registers.get_prg_rom_address (r : MMC3Registers) (addr prg_rom_banks : Nat) :
    Option Nat :=
  match r.prg_rom_bank_mode with
  | .TwoSwitchTwoFix =>
    if 0x8000 ≤ addr ∧ addr ≤ 0x9FFF then some (r.bank_data 6 * 0x2000 + addr - 0x8000)
    else if 0xA000 ≤ addr ∧ addr ≤ 0xBFFF then some (r.bank_data 7 * 0x2000 + addr - 0xA000)
    else if 0xC000 ≤ addr ∧ addr ≤ 0xDFFF then
      some ((prg_rom_banks - 2) * 0x2000 + addr - 0xC000)
    else if 0xE000 ≤ addr ∧ addr ≤ 0xFFFF then
      some ((prg_rom_banks - 1) * 0x2000 + addr - 0xE000)
    else none
  | .FixTwoSwitchFix =>
    if 0x8000 ≤ addr ∧ addr ≤ 0x9FFF then
      some ((prg_rom_banks - 2) * 0x2000 + addr - 0x8000)
    else if 0xA000 ≤ addr ∧ addr ≤ 0xBFFF then some (r.bank_data 7 * 0x2000 + addr - 0xA000)
    else if 0xC000 ≤ addr ∧ addr ≤ 0xDFFF then some (r.bank_data 6 * 0x2000 + addr - 0xC000)
    else if 0xE000 ≤ addr ∧ addr ≤ 0xFFFF then
      some ((prg_rom_banks - 1) * 0x2000 + addr - 0xE000)
    else none

/-- The MMC3 mapper state: cartridge plus registers, from mapper/mmc3.rs
(struct MMC3; the bus back-reference is modelled at the call sites). -/
structure MMC3 where
  cartridge : Cartridge
  r : MMC3Registers

/-- MMC3::new from mapper/mmc3.rs. -/
def MMC3.new (c : Cartridge) : MMC3 := { cartridge := c, r := MMC3Registers.new }

/-- Mapper::read_byte for MMC3, from mapper/mmc3.rs.  CHR space routes
through the CHR translation, 0x6000-0x7FFF reads PRG-RAM when enabled,
PRG space routes through the PRG translation, anything else reads 0. -/
def MMC3.read_byte (m : MMC3) (addr : Nat) : Option Nat :=
  if addr ≤ 0x1FFF then
    (m.r.get_chr_rom_address addr).map m.cartridge.read_chr_rom
  else if 0x6000 ≤ addr ∧ addr ≤ 0x7FFF ∧ m.r.prg_ram_enabled then
    some (m.cartridge.read_prg_ram (addr - 0x6000))
  else if 0x8000 ≤ addr ∧ addr ≤ 0xFFFF then
    let prg_rom_banks := m.cartridge.prg_rom_len / 0x2000
    (m.r.get_prg_rom_address addr prg_rom_banks).map m.cartridge.read_prg_rom
  else
    some 0

/-- Mapper::write_byte for MMC3, from mapper/mmc3.rs: CHR space writes
CHR-RAM, 0x6000-0x7FFF writes PRG-RAM when write-enabled, and the four
PRG ranges dispatch on address parity to the register protocol. -/
def MMC3.write_byte (m : MMC3) (addr val : Nat) : Option MMC3 :=
  if addr ≤ 0x1FFF then
    (m.r.get_chr_rom_address addr).map
      (fun a => { m with cartridge := m.cartridge.write_chr_rom a val })
  else if 0x6000 ≤ addr ∧ addr ≤ 0x7FFF ∧ m.r.prg_ram_writes_enabled then
    some { m with cartridge := m.cartridge.write_prg_ram (addr - 0x6000) val }
  else if 0x8000 ≤ addr ∧ addr ≤ 0x9FFF then
    if addr &&& 0x01 = 0 then some { m with r := m.r.write_bank_select val }
    else some { m with r := m.r.write_bank_data val }
  else if 0xA000 ≤ addr ∧ addr ≤ 0xBFFF then
    if addr &&& 0x01 = 0 then some { m with r := m.r.write_mirroring_mode val }
    else some { m with r := m.r.write_prg_ram_protect val }
  else if 0xC000 ≤ addr ∧ addr ≤ 0xDFFF then
    if addr &&& 0x01 = 0 then some { m with r := { m.r with irq_latch := val } }
    else some { m with r := { m.r with irq_counter := m.r.irq_latch } }
  else if 0xE000 ≤ addr ∧ addr ≤ 0xFFFF then
    if addr &&& 0x01 = 0 then some { m with r := { m.r with irq_enabled := false } }
    else some { m with r := { m.r with irq_enabled := true } }
  else
    some m

/-- Mapper::mirroring_mode for MMC3, from mapper/mmc3.rs: sticky None when
the cartridge declares four-screen, otherwise the register-driven mode. -/
def MMC3.mirroring_mode (m : MMC3) : MirroringMode :=
  if m.cartridge.mirroring_mode = MirroringMode.None then MirroringMode.None
  else m.r.mirroring_mode

/-- Mapper::step for MMC3, from mapper/mmc3.rs.  It observes the PPU cycle,
scanline and rendering flags (via the bus in the source; passed as
arguments here) and returns the new mapper state together with whether an
IRQ was raised on the CPU. -/
def MMC3.step (m : MMC3) (cycle scanline : Nat) (show_sprites show_background : Bool) :
    MMC3 × Bool :=
  let rendering_enabled := show_sprites || show_background
  if cycle ≠ 260 || scanline ≥ 240 || !rendering_enabled then (m, false)
  else if m.r.irq_counter = 0 then
    ({ m with r := { m.r with irq_counter := m.r.irq_latch } }, false)
  else
    let c := m.r.irq_counter - 1
    ({ m with r := { m.r with irq_counter := c } }, c = 0 && m.r.irq_enabled)

/-- The PPU register file (struct Registers in ppu/registers.rs, a file not
under src/; its fields are those used by ppu/mod.rs, and the spec data
model section 3).  Byte and word fields are Nat. -/
structure PpuRegisters where
  last_written_byte : Nat
  oam_addr : Nat
  bus_address : Nat
  buffer : Nat
  vram_address_increment : Nat
  v : Nat
  t : Nat
  x : Nat
  w : Bool
  nametable_byte : Nat
  palette : Nat
  low_tile_byte : Nat
  high_tile_byte : Nat
  tile : Nat
  background_pattern_table_address : Nat
  sprite_pattern_table_address : Nat
  sprite_size : Nat × Nat
  show_background : Bool
  show_sprites : Bool
  show_left_background : Bool
  show_left_sprites : Bool
  nmi_enabled : Bool
  v_blank_started : Bool
  sprite_0_hit : Bool
  sprite_overflow : Bool

/-- Modelled from the spec: Registers::write_ppu_ctrl (ppu/registers.rs is
not under src/).  Per the spec, PPUCTRL yields the control-derived fields:
nametable base (into t), increment stride 1 or 32, sprite and background
pattern table bases, sprite size 8x8 or 8x16, and the NMI enable. -/
def PpuRegisters.write_ppu_ctrl (r : PpuRegisters) (val : Nat) : PpuRegisters :=
  { r with
    t := (r.t &&& 0x73FF) ||| ((val &&& 0x03) <<< 10)
    vram_address_increment := if val &&& 0x04 = 0 then 1 else 32
    sprite_pattern_table_address := if val &&& 0x08 = 0 then 0 else 0x1000
    background_pattern_table_address := if val &&& 0x10 = 0 then 0 else 0x1000
    sprite_size := if val &&& 0x20 = 0 then (8, 8) else (8, 16)
    nmi_enabled := val &&& 0x80 ≠ 0 }

/-- Modelled from the spec: Registers::write_ppu_mask (ppu/registers.rs is
not under src/).  PPUMASK yields the mask-derived fields: the left-8-column
flags and the show-background / show-sprites flags. -/
def PpuRegisters.write_ppu_mask (r : PpuRegisters) (val : Nat) : PpuRegisters :=
  { r with
    show_left_background := val &&& 0x02 ≠ 0
    show_left_sprites := val &&& 0x04 ≠ 0
    show_background := val &&& 0x08 ≠ 0
    show_sprites := val &&& 0x10 ≠ 0 }

/-- Modelled from the spec: Registers::read_ppu_status (ppu/registers.rs is
not under src/).  Per the spec, a PPUSTATUS read returns the three status
flags in the top bits, clears the VBlank flag and resets the write toggle. -/
def PpuRegisters.read_ppu_status (r : PpuRegisters) : Nat × PpuRegisters :=
  ((if r.v_blank_started then 0x80 else 0) +
     (if r.sprite_0_hit then 0x40 else 0) +
     (if r.sprite_overflow then 0x20 else 0),
   { r with v_blank_started := false, w := false })

/-- Modelled from the spec: Registers::write_ppu_scroll (ppu/registers.rs is
not under src/): a two-write latched register toggling w, filling fine X
and the coarse and fine scroll bits of t. -/
def PpuRegisters.write_ppu_scroll (r : PpuRegisters) (val : Nat) : PpuRegisters :=
  if !r.w then
    { r with x := val &&& 0x07, t := (r.t &&& 0x7FE0) ||| (val >>> 3), w := true }
  else
    { r with
      t := (r.t &&& 0x0C1F) ||| ((val &&& 0x07) <<< 12) ||| ((val &&& 0xF8) <<< 2)
      w := false }

/-- Modelled from the spec: Registers::write_ppu_addr (ppu/registers.rs is
not under src/): a two-write latched register toggling w; the first write
sets the high six bits of t, the second sets the low byte and transfers t
into v and into the PPUDATA bus address. -/
def PpuRegisters.write_ppu_addr (r : PpuRegisters) (val : Nat) : PpuRegisters :=
  if !r.w then
    { r with t := (r.t &&& 0x00FF) ||| ((val &&& 0x3F) <<< 8), w := true }
  else
    let t := (r.t &&& 0x7F00) ||| (val &&& 0xFF)
    { r with t := t, v := t, bus_address := t, w := false }

/-- Modelled from the spec: Registers::copy_scroll_x (ppu/registers.rs is
not under src/): copies the X-related bits of t into v. -/
def PpuRegisters.copy_scroll_x (r : PpuRegisters) : PpuRegisters :=
  { r with v := (r.v &&& 0x7BE0) ||| (r.t &&& 0x041F) }

/-- Modelled from the spec: Registers::copy_scroll_y (ppu/registers.rs is
not under src/): copies the Y-related bits of t into v. -/
def PpuRegisters.copy_scroll_y (r : PpuRegisters) : PpuRegisters :=
  { r with v := (r.v &&& 0x041F) ||| (r.t &&& 0x7BE0) }

/-- Modelled from the spec: Registers::increment_scroll_x (ppu/registers.rs
is not under src/): increments coarse X in v, wrapping into the horizontal
nametable bit. -/
def PpuRegisters.increment_scroll_x (r : PpuRegisters) : PpuRegisters :=
  if r.v &&& 0x001F = 31 then { r with v := (r.v &&& 0x7FE0) ^^^ 0x0400 }
  else { r with v := r.v + 1 }

/-- Modelled from the spec: Registers::increment_scroll_y (ppu/registers.rs
is not under src/): increments fine Y in v, carrying into coarse Y and
wrapping into the vertical nametable bit. -/
def PpuRegisters.increment_scroll_y (r : PpuRegisters) : PpuRegisters :=
  if r.v &&& 0x7000 ≠ 0x7000 then { r with v := r.v + 0x1000 }
  else
    let v := r.v &&& 0x0FFF
    let coarse_y := (v &&& 0x03E0) >>> 5
    if coarse_y = 29 then { r with v := (v &&& 0x7C1F) ^^^ 0x0800 }
    else if coarse_y = 31 then { r with v := v &&& 0x7C1F }
    else { r with v := v + 0x20 }

/-- Modelled from the spec: the initial register file, as left by Ppu::new
followed by initialize (which writes 0 to PPUCTRL and PPUMASK per
ppu/mod.rs). -/
def PpuRegisters.initial : PpuRegisters where
  last_written_byte := 0
  oam_addr := 0
  bus_address := 0
  buffer := 0
  vram_address_increment := 1
  v := 0
  t := 0
  x := 0
  w := false
  nametable_byte := 0
  palette := 0
  low_tile_byte := 0
  high_tile_byte := 0
  tile := 0
  background_pattern_table_address := 0
  sprite_pattern_table_address := 0
  sprite_size := (8, 8)
  show_background := false
  show_sprites := false
  show_left_background := false
  show_left_sprites := false
  nmi_enabled := false
  v_blank_started := false
  sprite_0_hit := false
  sprite_overflow := false

/-- Initial palette RAM contents, from Ppu::new in ppu/mod.rs. -/
def initialPaletteRam : List Nat :=
  [0x09, 0x01, 0x00, 0x01,
   0x00, 0x02, 0x02, 0x0D,
   0x08, 0x10, 0x08, 0x24,
   0x00, 0x00, 0x04, 0x2C,
   0x09, 0x01, 0x34, 0x03,
   0x00, 0x04, 0x00, 0x14,
   0x08, 0x3A, 0x00, 0x02,
   0x00, 0x20, 0x2C, 0x08]

/-- The 64-entry fixed RGB color table COLORS from ppu/mod.rs. -/
def COLORS : List Nat :=
  [0x007C7C7C, 0x000000FC, 0x000000BC, 0x004428BC,
   0x00940084, 0x00A80020, 0x00A81000, 0x00881400,
   0x00503000, 0x00007800, 0x00006800, 0x00005800,
   0x00004058, 0x00000000, 0x00000000, 0x00000000,
   0x00BCBCBC, 0x000078F8, 0x000058F8, 0x006844FC,
   0x00D800CC, 0x00E40058, 0x00F83800, 0x00E45C10,
   0x00AC7C00, 0x0000B800, 0x0000A800, 0x0000A844,
   0x00008888, 0x00000000, 0x00000000, 0x00000000,
   0x00F8F8F8, 0x003CBCFC, 0x006888FC, 0x009878F8,
   0x00F878F8, 0x00F85898, 0x00F87858, 0x00FCA044,
   0x00F8B800, 0x00B8F818, 0x0058D854, 0x0058F898,
   0x0000E8D8, 0x00787878, 0x00000000, 0x00000000,
   0x00FCFCFC, 0x00A4E4FC, 0x00B8B8F8, 0x00D8B8F8,
   0x00F8B8F8, 0x00F8A4C0, 0x00F0D0B0, 0x00FCE0A8,
   0x00F8D878, 0x00D8F878, 0x00B8F8B8, 0x00B8F8D8,
   0x0000FCFC, 0x00F8D8F8, 0x00000000, 0x00000000]

/-- The PPU state, from ppu/mod.rs (struct Ppu).  The byte arrays are
modelled as index-to-byte maps; the attached mapper (reached through the
bus in the source) is carried as a field. -/
structure Ppu where
  r : PpuRegisters
  buffer_index : Nat
  buffer : Nat → Nat
  cycle : Nat
  scanline : Nat
  frame : Nat
  primary_oam : Nat → Nat
  secondary_oam : Nat → Nat
  is_sprite_0 : Nat → Bool
  vram : Nat → Nat
  palette_ram : Nat → Nat
  mapper : MMC3

/-- Ppu::new from ppu/mod.rs (followed by initialize for the register
file), with the given mapper attached. -/
def Ppu.new (m : MMC3) : Ppu where
  r := PpuRegisters.initial
  buffer_index := 0
  buffer := fun _ => 0
  cycle := 0
  scanline := 0
  frame := 0
  primary_oam := fun _ => 0
  secondary_oam := fun _ => 0
  is_sprite_0 := fun _ => false
  vram := fun _ => 0
  palette_ram := fun i => initialPaletteRam.getD i 0
  mapper := m

/-- Physical VRAM index for a nametable address, from the body of
Ppu::read_byte and Ppu::write_byte in ppu/mod.rs (both compute it with
these exact steps): fold into 0x1000, split into a 1 KiB page index and
offset, and translate the page through MIRRORING_MODE_TABLE. -/
def nametablePhys (mode : MirroringMode) (addr : Nat) : Nat :=
  let a := (addr - 0x2000) % 0x1000
  let index := a / 0x400
  let offset := a % 0x400
  MIRRORING_MODE_TABLE.getD (mode.toNat * 4 + index) 0 * 0x400 + offset

/-- Ppu::read_byte from ppu/mod.rs: pattern space routes to the mapper,
nametable space to VRAM through the mirroring table, palette space to
palette RAM with the fourth-entry fold; none models the panic arm. -/
def Ppu.read_byte (s : Ppu) (addr : Nat) : Option Nat :=
  if addr ≤ 0x1FFF then s.mapper.read_byte addr
  else if addr ≤ 0x3EFF then
    some (s.vram (nametablePhys s.mapper.mirroring_mode addr))
  else if addr ≤ 0x3FFF then
    let modulus := if addr % 0x04 = 0 then 0x10 else 0x20
    some (s.palette_ram ((addr - 0x3F00) % modulus))
  else none

/-- Ppu::write_byte from ppu/mod.rs; none models the panic arm. -/
def Ppu.write_byte (s : Ppu) (addr val : Nat) : Option Ppu :=
  if addr ≤ 0x1FFF then
    (s.mapper.write_byte addr val).map (fun m => { s with mapper := m })
  else if addr ≤ 0x3EFF then
    let phys := nametablePhys s.mapper.mirroring_mode addr
    some { s with vram := fun i => if i = phys then val else s.vram i }
  else if addr ≤ 0x3FFF then
    let modulus := if addr % 0x04 = 0 then 0x10 else 0x20
    let idx := (addr - 0x3F00) % modulus
    some { s with palette_ram := fun i => if i = idx then val else s.palette_ram i }
  else none

/-- Ppu::read_register from ppu/mod.rs: returns the byte read and the new
PPU state; none models the panic arm for an address outside 0x2000-0x2007.
The write-only registers return the open-bus latch last_written_byte;
PPUDATA implements the buffered read with the increment of bus_address
(a u16 in the source, hence the wrap at 0x10000). -/
def Ppu.read_register (s : Ppu) (addr : Nat) : Option (Nat × Ppu) :=
  if addr = 0x2000 then some (s.r.last_written_byte, s)
  else if addr = 0x2001 then some (s.r.last_written_byte, s)
  else if addr = 0x2002 then
    let (val, r) := s.r.read_ppu_status
    some (val, { s with r := r })
  else if addr = 0x2003 then some (s.r.last_written_byte, s)
  else if addr = 0x2004 then some (s.primary_oam s.r.oam_addr, s)
  else if addr = 0x2005 then some (s.r.last_written_byte, s)
  else if addr = 0x2006 then some (s.r.last_written_byte, s)
  else if addr = 0x2007 then do
    let ret ← s.read_byte s.r.bus_address
    let incremented := (s.r.bus_address + s.r.vram_address_increment) % 0x10000
    if s.r.bus_address < 0x3F00 then
      some (s.r.buffer,
        { s with r := { s.r with buffer := ret, bus_address := incremented } })
    else
      let b ← s.read_byte (s.r.bus_address - 0x1000)
      some (ret,
        { s with r := { s.r with buffer := b, bus_address := incremented } })
  else none

/-- Ppu::write_register from ppu/mod.rs: records the open-bus latch, then
dispatches; none models the panic arm. -/
def Ppu.write_register (s : Ppu) (addr val : Nat) : Option Ppu :=
  let s := { s with r := { s.r with last_written_byte := val } }
  if addr = 0x2000 then some { s with r := s.r.write_ppu_ctrl val }
  else if addr = 0x2001 then some { s with r := s.r.write_ppu_mask val }
  else if addr = 0x2002 then some s
  else if addr = 0x2003 then some { s with r := { s.r with oam_addr := val } }
  else if addr = 0x2004 then
    some { s with
      primary_oam := fun i => if i = s.r.oam_addr then val else s.primary_oam i
      r := { s.r with oam_addr := (s.r.oam_addr + 1) % 0x100 } }
  else if addr = 0x2005 then some { s with r := s.r.write_ppu_scroll val }
  else if addr = 0x2006 then some { s with r := s.r.write_ppu_addr val }
  else if addr = 0x2007 then do
    let s2 ← s.write_byte s.r.bus_address val
    some { s2 with
      r := { s2.r with
        bus_address := (s2.r.bus_address + s2.r.vram_address_increment) % 0x10000 } }
  else none

/-- Attribute table address as computed by Ppu::fetch_attribute_table_byte
in ppu/mod.rs (coarse_x = v >> 2, coarse_y = v >> 7, then
0x23C0 or (v and 0x0C00) or (coarse_x and 7) or ((coarse_y and 7) shl 3)). -/
def attrTableAddrImpl (v : Nat) : Nat :=
  let coarse_x := v >>> 2
  let coarse_y := v >>> 7
  0x23C0 ||| (v &&& 0x0C00) ||| (coarse_x &&& 0x07) ||| ((coarse_y &&& 0x07) <<< 3)

/-- Canonical attribute table address formula, as written in the spec:
0x23C0 or (v and 0x0C00) or ((v shr 4) and 0x38) or ((v shr 2) and 0x07). -/
def attrTableAddrCanonical (v : Nat) : Nat :=
  0x23C0 ||| (v &&& 0x0C00) ||| ((v >>> 4) &&& 0x38) ||| ((v >>> 2) &&& 0x07)

/-- Palette bit offset within the attribute byte, from
Ppu::fetch_attribute_table_byte in ppu/mod.rs. -/
def attrPaletteOffset (v : Nat) : Nat :=
  (v &&& 0x02) ||| ((v &&& 0x40) >>> 4)

/-- Ppu::fetch_nametable_byte from ppu/mod.rs. -/
def Ppu.fetch_nametable_byte (s : Ppu) : Option Ppu :=
  let addr := 0x2000 ||| (s.r.v &&& 0x0FFF)
  (s.read_byte addr).map (fun b => { s with r := { s.r with nametable_byte := b } })

/-- Ppu::fetch_attribute_table_byte from ppu/mod.rs. -/
def Ppu.fetch_attribute_table_byte (s : Ppu) : Option Ppu :=
  (s.read_byte (attrTableAddrImpl s.r.v)).map (fun b =>
    { s with r := { s.r with palette := (b >>> attrPaletteOffset s.r.v) &&& 0x03 } })

/-- Ppu::fetch_tile_byte from ppu/mod.rs. -/
def Ppu.fetch_tile_byte (s : Ppu) (high : Bool) : Option Ppu :=
  let fine_y := (s.r.v >>> 12) &&& 0x07
  let tile_offset := s.r.nametable_byte * 16
  let addr := s.r.background_pattern_table_address + tile_offset + fine_y
  if high then
    (s.read_byte (addr + 8)).map (fun b => { s with r := { s.r with high_tile_byte := b } })
  else
    (s.read_byte addr).map (fun b => { s with r := { s.r with low_tile_byte := b } })

/-- The 8-iteration loop of Ppu::load_tile in ppu/mod.rs: the high and low
tile bytes (u8, shifted left each round) and the accumulated tile word. -/
def loadTileLoop : Nat → Nat → Nat → Nat → Nat → Nat × Nat × Nat
  | 0, high, low, _, acc => (high, low, acc)
  | n + 1, high, low, pal, acc =>
    let color := ((high >>> 6) &&& 0x02) ||| ((low >>> 7) &&& 0x01)
    loadTileLoop n ((high <<< 1) % 0x100) ((low <<< 1) % 0x100) pal
      (((acc <<< 4) % 2 ^ 64) ||| ((pal <<< 2) ||| color))

/-- Ppu::load_tile from ppu/mod.rs: decodes the fetched tile bytes into
eight 4-bit palette-color nibbles OR-ed into the tile shift register. -/
def Ppu.load_tile (s : Ppu) : Ppu :=
  let res := loadTileLoop 8 s.r.high_tile_byte s.r.low_tile_byte s.r.palette 0
  { s with r := { s.r with
      high_tile_byte := res.1
      low_tile_byte := res.2.1
      tile := s.r.tile ||| res.2.2 } }

/-- Ppu::compute_background_pixel from ppu/mod.rs. -/
def Ppu.compute_background_pixel (s : Ppu) : Nat :=
  let x := (s.cycle - 1) % 0x100
  if (x < 8 && !s.r.show_left_background) || !s.r.show_background then 0
  else (s.r.tile >>> 32 >>> ((7 - s.r.x) * 4)) &&& 0x0F

/-- Wrapping 8-bit subtraction, for the u8 arithmetic of
Ppu::compute_sprite_pixel. -/
def sub8 (a b : Nat) : Nat := (0x100 + a % 0x100 - b % 0x100) % 0x100

/-- The slot scan of Ppu::compute_sprite_pixel from ppu/mod.rs, over the
list of remaining secondary OAM slots.  An all-0xFF slot breaks the scan;
a transparent or out-of-span slot continues it. -/
def spritePixelScan (s : Ppu) (x y : Nat) : List Nat → Option (Nat × Bool × Bool)
  | [] => some (0, false, false)
  | i :: rest =>
    let sprite_y := (s.secondary_oam (i * 4) + 1) % 0x100
    let sprite_x := s.secondary_oam (i * 4 + 3)
    let tile_index := s.secondary_oam (i * 4 + 1)
    let attributes := s.secondary_oam (i * 4 + 2)
    if sprite_y &&& tile_index &&& attributes &&& sprite_x = 0xFF then
      some (0, false, false)
    else if !(sprite_x ≤ x && x ≤ min (sprite_x + 7) 0xFF) then
      spritePixelScan s x y rest
    else if !(1 ≤ sprite_y && sprite_y ≤ 239) then
      spritePixelScan s x y rest
    else
      let py0 := sub8 y sprite_y
      let px0 := 7 - (x - sprite_x)
      let px := if attributes &&& 0x40 ≠ 0 then sub8 (s.r.sprite_size.1 - 1) px0 else px0
      let py1 := if attributes &&& 0x80 ≠ 0 then sub8 (s.r.sprite_size.2 - 1) py0 else py0
      let pta :=
        if s.r.sprite_size.2 = 16 then (tile_index &&& 0x01) * 0x1000
        else s.r.sprite_pattern_table_address
      let ti0 := if s.r.sprite_size.2 = 16 then tile_index &&& 0xFE else tile_index
      let py := if s.r.sprite_size.2 = 16 && py1 ≥ 8 then py1 - 8 else py1
      let ti := if s.r.sprite_size.2 = 16 && py1 ≥ 8 then ti0 + 1 else ti0
      let addr := pta + ti * 16 + py
      match s.read_byte addr, s.read_byte (addr + 8) with
      | some lowb, some highb =>
        let low_tile_bit := (lowb >>> px) &&& 0x01
        let high_tile_bit := (highb >>> px) &&& 0x01
        let palette := attributes &&& 0x03
        let color := low_tile_bit ||| (high_tile_bit <<< 1)
        if color = 0 then spritePixelScan s x y rest
        else some ((palette <<< 2) ||| color, attributes &&& 0x20 ≠ 0, s.is_sprite_0 i)
      | _, _ => none

/-- Ppu::compute_sprite_pixel from ppu/mod.rs. -/
def Ppu.compute_sprite_pixel (s : Ppu) : Option (Nat × Bool × Bool) :=
  let y := s.scanline % 0x100
  let x := (s.cycle - 1) % 0x100
  if (x < 8 && !s.r.show_left_sprites) || !s.r.show_sprites then some (0, false, false)
  else spritePixelScan s x y (List.range 8)

/-- Ppu::draw_pixel from ppu/mod.rs: composes the background and sprite
pixels, possibly sets sprite_0_hit, looks the palette index up in COLORS
and writes four RGBA bytes at buffer_index. -/
def Ppu.draw_pixel (s : Ppu) : Option Ppu := do
  let background_pixel := s.compute_background_pixel
  let p ← s.compute_sprite_pixel
  let sprite_pixel := p.1
  let sprite_priority := p.2.1
  let is_s0 := p.2.2
  let background_on := background_pixel &&& 0x03 ≠ 0
  let sprite_on := sprite_pixel &&& 0x03 ≠ 0
  let addr :=
    if !background_on && !sprite_on then 0x3F00
    else if !background_on && sprite_on then 0x3F10 + sprite_pixel
    else if background_on && !sprite_on then 0x3F00 + background_pixel
    else if !sprite_priority then 0x3F10 + sprite_pixel
    else 0x3F00 + background_pixel
  let s :=
    if background_on && sprite_on && decide (s.cycle < 256) && is_s0 then
      { s with r := { s.r with sprite_0_hit := true } }
    else s
  let cv ← s.read_byte addr
  let color := COLORS.getD (cv &&& 0x3F) 0
  let bi := s.buffer_index
  some { s with
    buffer := fun j =>
      if j = bi then (color >>> 16) &&& 0xFF
      else if j = bi + 1 then (color >>> 8) &&& 0xFF
      else if j = bi + 2 then color &&& 0xFF
      else if j = bi + 3 then 0xFF
      else s.buffer j
    buffer_index := bi + 4 }

/-- Qualification test of the batched sprite evaluation at cycle 257 in
Ppu::step (ppu/mod.rs): the sprite Y range contains the next scanline and
the top row is above 241. -/
def Ppu.qualifies (s : Ppu) (i : Nat) : Bool :=
  let y := s.primary_oam (i * 4) + 1
  let lo := y
  let hi := y + s.r.sprite_size.2 - 1
  let curr := s.scanline + 1
  (decide (lo ≤ curr) && decide (curr ≤ hi)) && decide (y < 241)

/-- Accumulator of the sprite evaluation loop in Ppu::step: the secondary
OAM under construction, the sprite-0 tags, the fill index and the
sprite_overflow flag. -/
structure EvalAcc where
  soam : Nat → Nat
  is0 : Nat → Bool
  idx : Nat
  ovf : Bool

/-- The 64-sprite evaluation loop of Ppu::step in ppu/mod.rs: qualifying
sprites are copied into secondary OAM four bytes at a time while room
remains; a further qualifying sprite sets sprite_overflow when rendering
is enabled. -/
def evalLoop (s : Ppu) : List Nat → EvalAcc → EvalAcc
  | [], acc => acc
  | i :: rest, acc =>
    if s.qualifies i then
      if acc.idx < 0x20 then
        evalLoop s rest
          { soam := fun j =>
              if j = acc.idx then s.primary_oam (i * 4)
              else if j = acc.idx + 1 then s.primary_oam (i * 4 + 1)
              else if j = acc.idx + 2 then s.primary_oam (i * 4 + 2)
              else if j = acc.idx + 3 then s.primary_oam (i * 4 + 3)
              else acc.soam j
            is0 := fun j => if j = acc.idx / 4 then decide (i = 0) else acc.is0 j
            idx := acc.idx + 4
            ovf := acc.ovf }
      else
        evalLoop s rest
          { acc with
            ovf := if s.r.show_sprites || s.r.show_background then true else acc.ovf }
    else evalLoop s rest acc

/-- The batched sprite evaluation at cycle 257 of Ppu::step in ppu/mod.rs:
clear secondary OAM to 0xFF, then run the 64-sprite loop. -/
def Ppu.evalSprites (s : Ppu) : Ppu :=
  let res := evalLoop s (List.range 64)
    { soam := fun _ => 0xFF, is0 := s.is_sprite_0, idx := 0, ovf := s.r.sprite_overflow }
  { s with
    secondary_oam := res.soam
    is_sprite_0 := res.is0
    r := { s.r with sprite_overflow := res.ovf } }

/-- Timing advance at the top of Ppu::step in ppu/mod.rs: cycle wraps at
341 into the scanline, the scanline wraps at 262 into the frame, and the
frame boundary resets buffer_index. -/
def Ppu.tick (s : Ppu) : Ppu :=
  if s.cycle + 1 = 341 then
    if s.scanline + 1 = 262 then
      { s with cycle := 0, scanline := 0, frame := s.frame + 1, buffer_index := 0 }
    else { s with cycle := 0, scanline := s.scanline + 1 }
  else { s with cycle := s.cycle + 1 }

/-- The tile-register shift at the head of the background pipeline block
of Ppu::step in ppu/mod.rs (a u64 shift left by 4). -/
def Ppu.shiftTile (s : Ppu) : Ppu :=
  { s with r := { s.r with tile := (s.r.tile <<< 4) % 2 ^ 64 } }

/-- The coarse-scroll increment at cycle mod 8 = 0 of the background
pipeline in Ppu::step: load the tile, then increment Y at cycle 256 and X
otherwise. -/
def Ppu.loadAndScroll (s : Ppu) : Ppu :=
  if s.cycle = 256 then { s.load_tile with r := s.load_tile.r.increment_scroll_y }
  else { s.load_tile with r := s.load_tile.r.increment_scroll_x }

/-- The background fetch pipeline block of Ppu::step in ppu/mod.rs: shift
the tile register by 4, then dispatch on cycle mod 8 (the cycle is not
modified by the shift, so the dispatch reads it from the shifted state). -/
def Ppu.backgroundPipeline (s : Ppu) : Option Ppu :=
  if s.cycle &&& 0x07 = 1 then s.shiftTile.fetch_nametable_byte
  else if s.cycle &&& 0x07 = 3 then s.shiftTile.fetch_attribute_table_byte
  else if s.cycle &&& 0x07 = 5 then s.shiftTile.fetch_tile_byte false
  else if s.cycle &&& 0x07 = 7 then s.shiftTile.fetch_tile_byte true
  else if s.cycle &&& 0x07 = 0 then some s.shiftTile.loadAndScroll
  else some s.shiftTile

/-- The pre-render Y scroll copy of Ppu::step in ppu/mod.rs, applied to
the in-flight state a; the timing condition reads the step state s (the
phases never modify cycle or scanline). -/
def Ppu.scrollYPhase (s a : Ppu) : Ppu :=
  if s.scanline = 261 ∧ 280 ≤ s.cycle ∧ s.cycle ≤ 304 then
    { a with r := a.r.copy_scroll_y }
  else a

/-- The cycle-257 X scroll copy of Ppu::step in ppu/mod.rs. -/
def Ppu.scrollXPhase (s a : Ppu) : Ppu :=
  if s.cycle = 257 then { a with r := a.r.copy_scroll_x } else a

/-- The cycle-257 batched sprite evaluation of Ppu::step in ppu/mod.rs. -/
def Ppu.evalPhase (s a : Ppu) : Ppu :=
  if s.cycle = 257 then a.evalSprites else a

/-- The per-line body of Ppu::step in ppu/mod.rs, run when the scanline is
visible or the pre-render line: pixel emission, the scroll copies, the
background pipeline and the batched sprite evaluation, in source order.
The phase conditions read cycle and scanline from s, which none of the
phases modify. -/
def Ppu.renderLine (s : Ppu) : Option Ppu :=
  if s.scanline ≤ 239 ∨ s.scanline = 261 then
    (if s.scanline ≤ 239 ∧ 1 ≤ s.cycle ∧ s.cycle ≤ 256 then s.draw_pixel else some s).bind
      (fun a =>
        ((if (1 ≤ s.cycle ∧ s.cycle ≤ 256) ∨ (321 ≤ s.cycle ∧ s.cycle ≤ 336) then
            (s.scrollXPhase (s.scrollYPhase a)).backgroundPipeline
          else some (s.scrollXPhase (s.scrollYPhase a))).map
          (fun b => s.evalPhase b)))
  else some s

/-- The VBlank block of Ppu::step in ppu/mod.rs: at scanline 241, cycle 1,
set v_blank_started and report whether an NMI is raised on the CPU. -/
def Ppu.vblankPhase (s : Ppu) : Ppu × Bool :=
  if s.scanline = 241 ∧ s.cycle = 1 then
    ({ s with r := { s.r with v_blank_started := true } }, s.r.nmi_enabled)
  else (s, false)

/-- The pre-render block of Ppu::step in ppu/mod.rs: at scanline 261,
cycle 1, clear v_blank_started, sprite_0_hit and sprite_overflow. -/
def Ppu.prerenderPhase (s : Ppu) : Ppu :=
  if s.scanline = 261 ∧ s.cycle = 1 then
    { s with r := { s.r with
        v_blank_started := false, sprite_0_hit := false, sprite_overflow := false } }
  else s

/-- Ppu::step from ppu/mod.rs, returning the new state and whether an NMI
was raised on the CPU; none models a panic inside the step. -/
def Ppu.step (s : Ppu) : Option (Ppu × Bool) := do
  let s1 := s.tick
  let s2 ← s1.renderLine
  let p := s2.vblankPhase
  some (p.1.prerenderPhase, p.2)

/-- The number of primary-OAM sprites that qualify for the batched sprite
evaluation of Ppu::step at the current scanline. -/
def Ppu.qualifyCount (s : Ppu) : Nat := ((List.range 64).filter s.qualifies).length

/-- The PPU-state components that the per-line rendering phases of
Ppu::step never modify: the timing counters read by the later VBlank
blocks, the primary OAM, and the register fields consulted by the sprite
evaluation (sprite size, show flags) and the VBlank block (NMI enable,
VBlank flag). -/
def PresEq (s t : Ppu) : Prop :=
  t.cycle = s.cycle ∧ t.scanline = s.scanline ∧ t.primary_oam = s.primary_oam ∧
  t.r.v_blank_started = s.r.v_blank_started ∧ t.r.nmi_enabled = s.r.nmi_enabled ∧
  t.r.sprite_size = s.r.sprite_size ∧ t.r.show_sprites = s.r.show_sprites ∧
  t.r.show_background = s.r.show_background

/-- Test harness: a 128 KiB PRG-ROM cartridge over an abstract ROM blob,
with CHR-RAM and a vertical mirroring hint. -/
def testCart (rom : Nat → Nat) : Cartridge where
  prg_rom := rom
  prg_rom_length := 16 * 0x2000
  prg_ram := fun _ => 0
  chr := fun _ => 0
  has_chr_ram := true
  mirroring_mode := .Vertical

/-- Test harness: the all-zero cartridge. -/
def cart0 : Cartridge := testCart (fun _ => 0)

/-- Test harness: apply an MMC3 write, keeping the old state in the
unreachable failure case (register writes never fail). -/
def mmc3W (m : MMC3) (addr val : Nat) : MMC3 := (m.write_byte addr val).getD m

/-- Test harness: one qualifying mapper step, with the PPU at cycle 260 on
a visible scanline and rendering enabled. -/
def stepQ (m : MMC3) : MMC3 × Bool := m.step 260 0 true false

/-- Test harness: iterate qualifying mapper steps. -/
def runQ (m : MMC3) : Nat → MMC3
  | 0 => m
  | n + 1 => (stepQ (runQ m n)).1

/-- Test harness: whether the IRQ is raised on the k-th qualifying step
after the start state (k counted from 1). -/
def firedQ (m : MMC3) (k : Nat) : Bool := (stepQ (runQ m (k - 1))).2

/-- Test harness: mapper state with latch 8 written via 0xC000. -/
def c1mA : MMC3 := mmc3W (MMC3.new cart0) 0xC000 8

/-- Test harness: c1mA after the IRQ reload write to 0xC001. -/
def c1mB : MMC3 := mmc3W c1mA 0xC001 0

/-- Test harness: mapper state for the concrete IRQ timing scenario of the
spec: write latch 8 to 0xC000, reload via 0xC001, enable via 0xE001. -/
def c1m : MMC3 := mmc3W c1mB 0xE001 0

/-- Test harness: a mapper state whose latch and counter differ, to observe
what the IRQ reload write does to the counter. -/
def c2m : MMC3 :=
  { MMC3.new cart0 with r := { MMC3Registers.new with irq_latch := 5, irq_counter := 3 } }

/-- Test harness: the freshly created PPU attached to a fresh mapper over
the all-zero cartridge. -/
def ppu0 : Ppu := Ppu.new (MMC3.new cart0)

/-- Test harness: mapper over an abstract ROM before the bank writes. -/
def c6m0 (rom : Nat → Nat) : MMC3 := MMC3.new (testCart rom)

/-- Test harness: c6m0 after the bank-select write of 0x06 to 0x8000. -/
def c6m1 (rom : Nat → Nat) : MMC3 := mmc3W (c6m0 rom) 0x8000 0x06

/-- Test harness: c6m1 after the bank-data write of 0x04 to 0x8001. -/
def c6m2 (rom : Nat → Nat) : MMC3 := mmc3W (c6m1 rom) 0x8001 0x04

/-- Test harness: ppu0 after writing 0xAB into nametable address 0x2000. -/
def w9 : Ppu := (ppu0.write_byte 0x2000 0xAB).getD ppu0

/-- Test harness: ppu0 with the PPUDATA bus address pointing at 0x2000. -/
def c4s0 : Ppu := { ppu0 with r := { ppu0.r with bus_address := 0x2000 } }

/-- Test harness: c4s0 after the PPUDATA write of 0xAB. -/
def c4s1 : Ppu := (c4s0.write_register 0x2007 0xAB).getD c4s0

/-- Test harness: c4s1 with the bus address reset to 0x2000. -/
def c4s2 : Ppu := { c4s1 with r := { c4s1.r with bus_address := 0x2000 } }

/-- Test harness: c4s2 after one PPUDATA read. -/
def c4s3 : Ppu := ((c4s2.read_register 0x2007).getD (0, c4s2)).2

/-- Test harness: ppu0 after a register write of 0x55 to PPUSCROLL. -/
def c10s : Ppu := (ppu0.write_register 0x2005 0x55).getD ppu0

/-- Test harness: the fresh PPU positioned just before scanline 241,
cycle 1. -/
def c7w : Ppu := { ppu0 with scanline := 241 }

/-- Test harness: the result of stepping c7w. -/
def c7w2 : Ppu × Bool := (c7w.step).getD (c7w, false)

/-- Test harness: the fresh PPU positioned just before cycle 257 of
scanline 0. -/
def c8w : Ppu := { ppu0 with cycle := 256 }

/-- Test harness: the result of stepping c8w. -/
def c8w2 : Ppu × Bool := (c8w.step).getD (c8w, false)

/-! Helper lemmas shared by the claim theorems. -/

theorem mmc3_write_reload (m : MMC3) (addr val : Nat) (h1 : 0xC000 ≤ addr)
    (h2 : addr ≤ 0xDFFF) (hodd : addr % 2 = 1) :
    m.write_byte addr val = some { m with r := { m.r with irq_counter := m.r.irq_latch } } := by
  have hA : ¬ addr ≤ 0x1FFF := by omega
  have hB : ¬ addr ≤ 0x7FFF := by omega
  have hC : ¬ addr ≤ 0x9FFF := by omega
  have hD : ¬ addr ≤ 0xBFFF := by omega
  have hpar : ¬ (addr &&& 0x01 = 0) := by rw [Nat.and_one_is_mod]; omega
  have hpar2 : ¬ addr % 2 = 0 := by omega
  simp [MMC3.write_byte, hA, hB, hC, hD, hpar, hpar2, h1, h2]

theorem mmc3_write_enable (m : MMC3) (addr val : Nat) (h1 : 0xE000 ≤ addr)
    (h2 : addr ≤ 0xFFFF) (hodd : addr % 2 = 1) :
    m.write_byte addr val = some { m with r := { m.r with irq_enabled := true } } := by
  have hA : ¬ addr ≤ 0x1FFF := by omega
  have hB : ¬ addr ≤ 0x7FFF := by omega
  have hC : ¬ addr ≤ 0x9FFF := by omega
  have hD : ¬ addr ≤ 0xBFFF := by omega
  have hE : ¬ addr ≤ 0xDFFF := by omega
  have hpar : ¬ (addr &&& 0x01 = 0) := by rw [Nat.and_one_is_mod]; omega
  have hpar2 : ¬ addr % 2 = 0 := by omega
  simp [MMC3.write_byte, hA, hB, hC, hD, hE, hpar, hpar2, h1, h2, hodd]

theorem stepQ_counter (m : MMC3) (c : Nat) (hc : m.r.irq_counter = c) (h1 : 1 ≤ c) :
    stepQ m = ({ m with r := { m.r with irq_counter := c - 1 } },
      decide (c - 1 = 0) && m.r.irq_enabled) := by
  subst hc
  have hne : ¬ m.r.irq_counter = 0 := by omega
  simp [stepQ, MMC3.step, hne]

theorem runQ_spec (m : MMC3) (N : Nat) (hc : m.r.irq_counter = N)
    (he : m.r.irq_enabled = true) :
    ∀ j, j ≤ N → (runQ m j).r.irq_counter = N - j ∧ (runQ m j).r.irq_enabled = true := by
  intro j
  induction j with
  | zero => intro _; exact ⟨hc, he⟩
  | succ n ih =>
    intro hle
    have hn := ih (by omega)
    have hstep := stepQ_counter (runQ m n) (N - n) hn.1 (by omega)
    constructor
    · show (stepQ (runQ m n)).1.r.irq_counter = N - (n + 1)
      rw [hstep]
      show N - n - 1 = N - (n + 1)
      omega
    · show (stepQ (runQ m n)).1.r.irq_enabled = true
      rw [hstep]
      exact hn.2

/-- C1 counterexample: with latch N = 8 written, the counter reloaded and
the IRQ enabled, the mapper raises the IRQ on the 8th qualifying scanline,
not on the 9th as the claim states: the 9th qualifying step reloads the
counter instead. -/
theorem c1_irq_not_on_ninth : firedQ c1m 9 = false ∧ firedQ c1m 8 = true := by decide

/-- C1 (amended): because the reload write sets irq_counter to irq_latch
directly (mmc3.rs line 227) rather than to 0, the mapper raises IRQ on the
CPU exactly N qualifying scanlines after the reload (for latch N with
1 <= N): among the first N qualifying steps, the IRQ fires on step k
if and only if k = N. -/
theorem c1_irq_after_latch_scanlines (m m1 m2 : MMC3) (N k : Nat)
    (hl : m.r.irq_latch = N) (hN : 1 ≤ N) (hk : 1 ≤ k) (hkN : k ≤ N)
    (hrel : m.write_byte 0xC001 0 = some m1) (hen : m1.write_byte 0xE001 0 = some m2) :
    (firedQ m2 k = true) ↔ k = N := by
  rw [mmc3_write_reload m 0xC001 0 (by omega) (by omega) (by omega)] at hrel
  have hm1 : m1 = { m with r := { m.r with irq_counter := m.r.irq_latch } } :=
    (Option.some_inj.mp hrel).symm
  rw [mmc3_write_enable m1 0xE001 0 (by omega) (by omega) (by omega)] at hen
  have hm2 : m2 = { m1 with r := { m1.r with irq_enabled := true } } :=
    (Option.some_inj.mp hen).symm
  have hc2 : m2.r.irq_counter = N := by rw [hm2, hm1]; simpa using hl
  have he2 : m2.r.irq_enabled = true := by rw [hm2]
  have hrun := runQ_spec m2 N hc2 he2 (k - 1) (by omega)
  have hstep := stepQ_counter (runQ m2 (k - 1)) (N - (k - 1)) hrun.1 (by omega)
  unfold firedQ
  rw [hstep]
  simp only [hrun.2, Bool.and_true, decide_eq_true_eq]
  omega

/-- C1 (amended) witness: at latch 8, the IRQ fires exactly on the 8th
qualifying step of the concrete scenario state. -/
theorem c1_irq_after_latch_scanlines_witness : (firedQ c1m 8 = true) ↔ 8 = 8 :=
  c1_irq_after_latch_scanlines c1mA c1mB c1m 8 8 (by decide) (by decide) (by decide)
    (by decide) rfl rfl

/-- C2 counterexample: on a mapper state with irq_latch = 5 and
irq_counter = 3, the CPU write to the odd address 0xC001 leaves
irq_counter = 5 (the latch value), not 0 as the claim states. -/
theorem c2_reload_sets_latch_not_zero :
    (mmc3W c2m 0xC001 0).r.irq_counter = 5 ∧ (mmc3W c2m 0xC001 0).r.irq_counter ≠ 0 := by
  decide

/-- C2 (amended): for every prior register state and every value written, a
CPU write to an odd address in 0xC000-0xDFFF sets irq_counter to the
current irq_latch (an immediate reload), so the next qualifying step
decrements it rather than reloading it. -/
theorem c2_reload_write_copies_latch (m : MMC3) (addr val : Nat) (h1 : 0xC000 ≤ addr)
    (h2 : addr ≤ 0xDFFF) (hodd : addr % 2 = 1) :
    m.write_byte addr val = some { m with r := { m.r with irq_counter := m.r.irq_latch } } :=
  mmc3_write_reload m addr val h1 h2 hodd

/-- C2 (amended) witness at a concrete state and address. -/
theorem c2_reload_write_copies_latch_witness :
    c2m.write_byte 0xC001 0 =
      some { c2m with r := { c2m.r with irq_counter := c2m.r.irq_latch } } :=
  c2_reload_write_copies_latch c2m 0xC001 0 (by decide) (by decide) (by decide)

theorem attr_shift_eq (v : Nat) : ((v >>> 7) &&& 0x07) <<< 3 = (v >>> 4) &&& 0x38 := by
  apply Nat.eq_of_testBit_eq
  intro i
  simp only [Nat.testBit_shiftLeft, Nat.testBit_shiftRight, Nat.testBit_land]
  match i with
  | 0 => simp [show Nat.testBit 56 0 = false from by decide]
  | 1 => simp [show Nat.testBit 56 1 = false from by decide]
  | 2 => simp [show Nat.testBit 56 2 = false from by decide]
  | 3 => simp [show Nat.testBit 56 3 = true from by decide,
               show Nat.testBit 7 0 = true from by decide]
  | 4 => simp [show Nat.testBit 56 4 = true from by decide,
               show Nat.testBit 7 1 = true from by decide]
  | 5 => simp [show Nat.testBit 56 5 = true from by decide,
               show Nat.testBit 7 2 = true from by decide]
  | n + 6 =>
    have h7 : Nat.testBit 7 (n + 3) = false := by
      apply Nat.testBit_lt_two_pow
      calc (7 : Nat) < 2 ^ 3 := by norm_num
      _ ≤ 2 ^ (n + 3) := Nat.pow_le_pow_right (by norm_num) (by omega)
    have h38 : Nat.testBit 0x38 (n + 6) = false := by
      apply Nat.testBit_lt_two_pow
      calc (0x38 : Nat) < 2 ^ 6 := by norm_num
      _ ≤ 2 ^ (n + 6) := Nat.pow_le_pow_right (by norm_num) (by omega)
    simp [h7, h38, show n + 6 - 3 = n + 3 from rfl]

/-- C5: for every 15-bit VRAM address v, the abbreviated attribute-table
address derivation used by fetch_attribute_table_byte equals the canonical
formula of the spec, and the palette bit offset is
(v and 2) or ((v and 0x40) shr 4). -/
theorem c5_attribute_address_equivalence (v : Nat) (hv : v < 0x8000) :
    attrTableAddrImpl v = attrTableAddrCanonical v ∧
      attrPaletteOffset v = (v &&& 0x02) ||| ((v &&& 0x40) >>> 4) := by
  constructor
  · show 0x23C0 ||| (v &&& 0x0C00) ||| ((v >>> 2) &&& 0x07) ||| (((v >>> 7) &&& 0x07) <<< 3) =
      0x23C0 ||| (v &&& 0x0C00) ||| ((v >>> 4) &&& 0x38) ||| ((v >>> 2) &&& 0x07)
    rw [attr_shift_eq]
    rw [Nat.lor_assoc, Nat.lor_assoc, Nat.lor_comm ((v >>> 2) &&& 0x07), ← Nat.lor_assoc,
      ← Nat.lor_assoc]
  · rfl

/-- C5 witness at a concrete 15-bit address. -/
theorem c5_attribute_address_equivalence_witness :
    attrTableAddrImpl 0x2345 = attrTableAddrCanonical 0x2345 ∧
      attrPaletteOffset 0x2345 = (0x2345 &&& 0x02) ||| ((0x2345 &&& 0x40) >>> 4) :=
  c5_attribute_address_equivalence 0x2345 (by decide)

/-- C3 counterexample: in the initial (hence reachable) PPU state, the
palette reads at 0x3F00 and 0x3F04 (both addresses congruent to 0 mod 4)
return different bytes (0x09 and 0x00): the fold is modulo 0x10, so
4-aligned entries at distinct offsets within a 16-byte half do not alias. -/
theorem c3_palette_reads_differ :
    ppu0.read_byte 0x3F00 = some 0x09 ∧ ppu0.read_byte 0x3F04 = some 0x00 ∧
      ppu0.read_byte 0x3F00 ≠ ppu0.read_byte 0x3F04 := by decide

/-- C3 (amended): in every PPU state, reads at addresses congruent to 0
mod 4 within 0x3F00-0x3FFF that are congruent modulo 0x10 return the same
byte: the 4-aligned fold maps the address to (addr - 0x3F00) mod 0x10,
so 0x3F00, 0x3F10, 0x3F20 and 0x3FF0 alias, as do 0x3F04 and 0x3F14, but
0x3F00 and 0x3F04 need not agree. -/
theorem c3_palette_mirroring_mod16 (s : Ppu) (a1 a2 : Nat)
    (h1a : 0x3F00 ≤ a1) (h1b : a1 ≤ 0x3FFF) (h1m : a1 % 4 = 0)
    (h2a : 0x3F00 ≤ a2) (h2b : a2 ≤ 0x3FFF) (h2m : a2 % 4 = 0)
    (heq : a1 % 0x10 = a2 % 0x10) :
    s.read_byte a1 = s.read_byte a2 := by
  have n1 : ¬ a1 ≤ 0x1FFF := by omega
  have n2 : ¬ a1 ≤ 0x3EFF := by omega
  have n3 : ¬ a2 ≤ 0x1FFF := by omega
  have n4 : ¬ a2 ≤ 0x3EFF := by omega
  simp only [Ppu.read_byte, if_neg n1, if_neg n2, if_neg n3, if_neg n4,
    if_pos h1b, if_pos h2b, if_pos h1m, if_pos h2m]
  have harg : (a1 - 0x3F00) % 0x10 = (a2 - 0x3F00) % 0x10 := by omega
  rw [harg]

/-- C3 (amended) witness: 0x3F00 and 0x3F10 alias in the initial state. -/
theorem c3_palette_mirroring_mod16_witness :
    ppu0.read_byte 0x3F00 = ppu0.read_byte 0x3F10 :=
  c3_palette_mirroring_mod16 ppu0 0x3F00 0x3F10 (by decide) (by decide) (by decide)
    (by decide) (by decide) (by decide) (by decide)

/-- C6: with 16 PRG-ROM banks, after the bank-select write 0x06 and the
bank-data write 0x04, a read at 0x8000 returns the PRG-ROM byte at offset
4 * 0x2000 = 0x8000 and a read at 0xE000 returns the byte at offset
15 * 0x2000 = 0x1E000; in general, in TwoSwitchTwoFix mode the four 8 KiB
windows map to banks bank_data 6, bank_data 7, L - 2 and L - 1. -/
theorem c6_prg_banking (rom : Nat → Nat) (r : MMC3Registers) (L addr : Nat)
    (hmode : r.prg_rom_bank_mode = PrgRomBankMode.TwoSwitchTwoFix) :
    ((c6m2 rom).read_byte 0x8000 = some (rom 0x8000) ∧
      (c6m2 rom).read_byte 0xE000 = some (rom 0x1E000)) ∧
    (0x8000 ≤ addr ∧ addr ≤ 0x9FFF →
      r.get_prg_rom_address addr L = some (r.bank_data 6 * 0x2000 + (addr - 0x8000))) ∧
    (0xA000 ≤ addr ∧ addr ≤ 0xBFFF →
      r.get_prg_rom_address addr L = some (r.bank_data 7 * 0x2000 + (addr - 0xA000))) ∧
    (0xC000 ≤ addr ∧ addr ≤ 0xDFFF →
      r.get_prg_rom_address addr L = some ((L - 2) * 0x2000 + (addr - 0xC000))) ∧
    (0xE000 ≤ addr ∧ addr ≤ 0xFFFF →
      r.get_prg_rom_address addr L = some ((L - 1) * 0x2000 + (addr - 0xE000))) := by
  have hmode2 : (c6m2 rom).r.prg_rom_bank_mode = PrgRomBankMode.TwoSwitchTwoFix := rfl
  have hbd : (c6m2 rom).r.bank_data 6 = 4 := rfl
  have hlen : (c6m2 rom).cartridge.prg_rom_len / 0x2000 = 16 := by
    norm_num [show (c6m2 rom).cartridge.prg_rom_len = 16 * 0x2000 from rfl]
  have hA : (c6m2 rom).r.get_prg_rom_address 0x8000 16 = some 0x8000 := by
    simp [MMC3Registers.get_prg_rom_address, hmode2, hbd]
  have hB : (c6m2 rom).r.get_prg_rom_address 0xE000 16 = some 0x1E000 := by
    simp [MMC3Registers.get_prg_rom_address, hmode2]
  have hread : ∀ a : Nat, 0x8000 ≤ a → a ≤ 0xFFFF → (c6m2 rom).read_byte a =
      ((c6m2 rom).r.get_prg_rom_address a 16).map (c6m2 rom).cartridge.read_prg_rom := by
    intro a ha hb
    have k1 : ¬ a ≤ 0x1FFF := by omega
    have k2 : ¬ (0x6000 ≤ a ∧ a ≤ 0x7FFF ∧ (c6m2 rom).r.prg_ram_enabled) :=
      fun h => absurd h.2.1 (by omega)
    unfold MMC3.read_byte
    rw [if_neg k1, if_neg k2, if_pos ⟨ha, hb⟩]
    simp only [hlen]
  refine ⟨⟨?_, ?_⟩, ?_, ?_, ?_, ?_⟩
  · rw [hread 0x8000 (by decide) (by decide), hA]; rfl
  · rw [hread 0xE000 (by decide) (by decide), hB]; rfl
  · intro h
    simp only [MMC3Registers.get_prg_rom_address, hmode]
    rw [if_pos h]
    exact congrArg some (by omega)
  · intro h
    simp only [MMC3Registers.get_prg_rom_address, hmode]
    rw [if_neg (fun hc => absurd hc.1 (by omega)), if_pos h]
    exact congrArg some (by omega)
  · intro h
    simp only [MMC3Registers.get_prg_rom_address, hmode]
    rw [if_neg (fun hc => absurd hc.1 (by omega)),
      if_neg (fun hc => absurd hc.1 (by omega)), if_pos h]
    exact congrArg some (by omega)
  · intro h
    simp only [MMC3Registers.get_prg_rom_address, hmode]
    rw [if_neg (fun hc => absurd hc.1 (by omega)),
      if_neg (fun hc => absurd hc.1 (by omega)),
      if_neg (fun hc => absurd hc.1 (by omega)), if_pos h]
    exact congrArg some (by omega)

/-- C6 witness: the concrete reads over the all-zero ROM and the fixed
last window of the fresh register state. -/
theorem c6_prg_banking_witness :
    (c6m2 (fun _ => 0)).read_byte 0x8000 = some 0 ∧
      MMC3Registers.new.get_prg_rom_address 0xE000 16 =
        some ((16 - 1) * 0x2000 + (0xE000 - 0xE000)) :=
  ⟨(c6_prg_banking (fun _ => 0) MMC3Registers.new 16 0xE000 rfl).1.1,
   (c6_prg_banking (fun _ => 0) MMC3Registers.new 16 0xE000 rfl).2.2.2.2
     ⟨by decide, by decide⟩⟩

theorem vram_write_read (s s2 : Ppu) (addr a2 v : Nat)
    (h1 : 0x2000 ≤ addr) (h2 : addr ≤ 0x3EFF) (h3 : 0x2000 ≤ a2) (h4 : a2 ≤ 0x3EFF)
    (hw : s.write_byte addr v = some s2)
    (hphys : nametablePhys s.mapper.mirroring_mode a2
      = nametablePhys s.mapper.mirroring_mode addr) :
    s2.read_byte a2 = some v := by
  have n1 : ¬ addr ≤ 0x1FFF := by omega
  simp only [Ppu.write_byte, if_neg n1, if_pos h2] at hw
  have hs2 := (Option.some_inj.mp hw).symm
  subst hs2
  have m1 : ¬ a2 ≤ 0x1FFF := by omega
  unfold Ppu.read_byte
  rw [if_neg m1, if_pos h4]
  simp [hphys]

/-- C9: a write then read at the same non-palette VRAM address returns the
written byte; two addresses whose mirroring-table translation coincides
alias; in particular 0x2000 and 0x2800 translate identically under
vertical mirroring and 0x2000 and 0x2400 under horizontal mirroring. -/
theorem c9_vram_roundtrip_and_alias (s s2 : Ppu) (addr a2 v : Nat)
    (h1 : 0x2000 ≤ addr) (h2 : addr ≤ 0x3EFF) (h3 : 0x2000 ≤ a2) (h4 : a2 ≤ 0x3EFF)
    (hw : s.write_byte addr v = some s2) :
    (s2.read_byte addr = some v) ∧
    (nametablePhys s.mapper.mirroring_mode a2 = nametablePhys s.mapper.mirroring_mode addr →
      s2.read_byte a2 = some v) ∧
    (nametablePhys MirroringMode.Vertical 0x2800 = nametablePhys MirroringMode.Vertical 0x2000 ∧
     nametablePhys MirroringMode.Horizontal 0x2400
       = nametablePhys MirroringMode.Horizontal 0x2000) := by
  refine ⟨vram_write_read s s2 addr addr v h1 h2 h1 h2 hw rfl,
    fun hphys => vram_write_read s s2 addr a2 v h1 h2 h3 h4 hw hphys, by decide⟩

/-- C9 witness: writing 0xAB at 0x2000 on the fresh (vertically mirrored)
PPU and reading it back at 0x2000 and at the alias 0x2800. -/
theorem c9_vram_roundtrip_and_alias_witness :
    (w9.read_byte 0x2000 = some 0xAB) ∧ (w9.read_byte 0x2800 = some 0xAB) :=
  ⟨(c9_vram_roundtrip_and_alias ppu0 w9 0x2000 0x2800 0xAB (by decide) (by decide)
      (by decide) (by decide) rfl).1,
   (c9_vram_roundtrip_and_alias ppu0 w9 0x2000 0x2800 0xAB (by decide) (by decide)
      (by decide) (by decide) rfl).2.1 (by decide)⟩

/-- C4: a PPUDATA read below 0x3F00 returns the previous buffer content,
refills the buffer from the bus address and advances the bus address by
the control-selected stride; at or above 0x3F00 it returns the palette
byte directly and refills the buffer from bus_address - 0x1000; and in the
concrete deferred-read scenario the first read returns the initial buffer
value 0 and the second returns the 0xAB written at VRAM 0x2000. -/
theorem c4_ppudata_buffered_read (s : Ppu) (rv : Nat)
    (hb : s.r.bus_address ≤ 0x3FFF)
    (hstride : s.r.vram_address_increment = 1 ∨ s.r.vram_address_increment = 32)
    (hread : s.read_byte s.r.bus_address = some rv) :
    (s.r.bus_address < 0x3F00 →
      s.read_register 0x2007 = some (s.r.buffer,
        { s with r := { s.r with
            buffer := rv
            bus_address := s.r.bus_address + s.r.vram_address_increment } })) ∧
    (0x3F00 ≤ s.r.bus_address → ∀ rv2,
      s.read_byte (s.r.bus_address - 0x1000) = some rv2 →
      s.read_register 0x2007 = some (rv,
        { s with r := { s.r with
            buffer := rv2
            bus_address := s.r.bus_address + s.r.vram_address_increment } })) ∧
    ((c4s2.read_register 0x2007).map Prod.fst = some ppu0.r.buffer ∧
      (c4s3.read_register 0x2007).map Prod.fst = some 0xAB) := by
  have hmod : (s.r.bus_address + s.r.vram_address_increment) % 0x10000 =
      s.r.bus_address + s.r.vram_address_increment := by
    apply Nat.mod_eq_of_lt
    rcases hstride with h | h <;> omega
  refine ⟨?_, ?_, by decide, by decide⟩
  · intro hlt
    simp [Ppu.read_register, hread, hmod, if_pos hlt]
  · intro hge rv2 hread2
    have hnlt : ¬ s.r.bus_address < 0x3F00 := by omega
    simp [Ppu.read_register, hread, hread2, hmod, hnlt]

/-- C4 witness: the first buffered read of the concrete scenario, applied
through the general statement at the concrete state. -/
theorem c4_ppudata_buffered_read_witness :
    c4s2.read_register 0x2007 = some (c4s2.r.buffer,
      { c4s2 with r := { c4s2.r with
          buffer := 0xAB
          bus_address := c4s2.r.bus_address + c4s2.r.vram_address_increment } }) :=
  (c4_ppudata_buffered_read c4s2 0xAB (by decide) (by decide) (by decide)).1 (by decide)

theorem write_ppu_ctrl_lw (r : PpuRegisters) (val : Nat) :
    (r.write_ppu_ctrl val).last_written_byte = r.last_written_byte := rfl

theorem write_ppu_mask_lw (r : PpuRegisters) (val : Nat) :
    (r.write_ppu_mask val).last_written_byte = r.last_written_byte := rfl

theorem write_ppu_scroll_lw (r : PpuRegisters) (val : Nat) :
    (r.write_ppu_scroll val).last_written_byte = r.last_written_byte := by
  unfold PpuRegisters.write_ppu_scroll
  split <;> rfl

theorem write_ppu_addr_lw (r : PpuRegisters) (val : Nat) :
    (r.write_ppu_addr val).last_written_byte = r.last_written_byte := by
  unfold PpuRegisters.write_ppu_addr
  split <;> rfl

theorem ppu_write_byte_regs (s s2 : Ppu) (a v : Nat) (h : s.write_byte a v = some s2) :
    s2.r = s.r := by
  unfold Ppu.write_byte at h
  split at h
  · obtain ⟨m, _, hs⟩ := Option.map_eq_some'.mp h
    subst hs
    rfl
  · split at h
    · cases Option.some_inj.mp h
      rfl
    · split at h
      · cases Option.some_inj.mp h
        rfl
      · cases h

/-- C10 (implicit): reading any of the write-only registers 0x2000,
0x2001, 0x2003, 0x2005 or 0x2006 returns the open-bus latch, which holds
the value most recently passed to write_register for any register
address. -/
theorem c10_open_bus_latch (s s2 : Ppu) (waddr raddr val : Nat)
    (hw1 : 0x2000 ≤ waddr) (hw2 : waddr ≤ 0x2007)
    (hra : raddr = 0x2000 ∨ raddr = 0x2001 ∨ raddr = 0x2003 ∨ raddr = 0x2005 ∨ raddr = 0x2006)
    (hwr : s.write_register waddr val = some s2) :
    s2.read_register raddr = some (val, s2) := by
  have hlast : s2.r.last_written_byte = val := by
    interval_cases waddr
    · simp only [Ppu.write_register] at hwr
      norm_num at hwr
      subst hwr
      simp [write_ppu_ctrl_lw]
    · simp only [Ppu.write_register] at hwr
      norm_num at hwr
      subst hwr
      simp [write_ppu_mask_lw]
    · simp only [Ppu.write_register] at hwr
      norm_num at hwr
      subst hwr
      rfl
    · simp only [Ppu.write_register] at hwr
      norm_num at hwr
      subst hwr
      rfl
    · simp only [Ppu.write_register] at hwr
      norm_num at hwr
      subst hwr
      rfl
    · simp only [Ppu.write_register] at hwr
      norm_num at hwr
      subst hwr
      simp [write_ppu_scroll_lw]
    · simp only [Ppu.write_register] at hwr
      norm_num at hwr
      subst hwr
      simp [write_ppu_addr_lw]
    · simp only [Ppu.write_register] at hwr
      norm_num at hwr
      obtain ⟨s3, hs3, hfin⟩ := Option.bind_eq_some.mp hwr
      have hregs := ppu_write_byte_regs _ _ _ _ hs3
      cases Option.some_inj.mp hfin
      simp [hregs]
  rcases hra with rfl | rfl | rfl | rfl | rfl <;>
    simp [Ppu.read_register, hlast]

/-- C10 witness: a PPUSCROLL write of 0x55 followed by a PPUADDR read. -/
theorem c10_open_bus_latch_witness : c10s.read_register 0x2006 = some (0x55, c10s) :=
  c10_open_bus_latch ppu0 c10s 0x2005 0x2006 0x55 (by decide) (by decide)
    (by decide) rfl

/-! Preservation lemmas for the phases of Ppu::step. -/

theorem presEq_refl (s : Ppu) : PresEq s s :=
  ⟨rfl, rfl, rfl, rfl, rfl, rfl, rfl, rfl⟩

theorem presEq_trans (a b c : Ppu) (h1 : PresEq a b) (h2 : PresEq b c) : PresEq a c := by
  obtain ⟨x1, x2, x3, x4, x5, x6, x7, x8⟩ := h1
  obtain ⟨y1, y2, y3, y4, y5, y6, y7, y8⟩ := h2
  exact ⟨y1.trans x1, y2.trans x2, y3.trans x3, y4.trans x4, y5.trans x5,
    y6.trans x6, y7.trans x7, y8.trans x8⟩

theorem tick_r (s : Ppu) : (s.tick).r = s.r := by
  unfold Ppu.tick
  split
  · split <;> rfl
  · rfl

theorem tick_oam (s : Ppu) : (s.tick).primary_oam = s.primary_oam := by
  unfold Ppu.tick
  split
  · split <;> rfl
  · rfl

theorem fetch_nametable_pres (s t : Ppu) (h : s.fetch_nametable_byte = some t) :
    PresEq s t ∧ t.r.sprite_overflow = s.r.sprite_overflow := by
  obtain ⟨b, _, heq⟩ := Option.map_eq_some'.mp h
  cases heq
  exact ⟨⟨rfl, rfl, rfl, rfl, rfl, rfl, rfl, rfl⟩, rfl⟩

theorem fetch_attribute_pres (s t : Ppu) (h : s.fetch_attribute_table_byte = some t) :
    PresEq s t ∧ t.r.sprite_overflow = s.r.sprite_overflow := by
  obtain ⟨b, _, heq⟩ := Option.map_eq_some'.mp h
  cases heq
  exact ⟨⟨rfl, rfl, rfl, rfl, rfl, rfl, rfl, rfl⟩, rfl⟩

theorem fetch_tile_pres (s t : Ppu) (hi : Bool) (h : s.fetch_tile_byte hi = some t) :
    PresEq s t ∧ t.r.sprite_overflow = s.r.sprite_overflow := by
  unfold Ppu.fetch_tile_byte at h
  split at h <;>
  · obtain ⟨b, _, heq⟩ := Option.map_eq_some'.mp h
    cases heq
    exact ⟨⟨rfl, rfl, rfl, rfl, rfl, rfl, rfl, rfl⟩, rfl⟩

theorem incx_eq (r : PpuRegisters) :
    r.increment_scroll_x = { r with v := (r.increment_scroll_x).v } := by
  unfold PpuRegisters.increment_scroll_x
  split <;> rfl

theorem incy_eq (r : PpuRegisters) :
    r.increment_scroll_y = { r with v := (r.increment_scroll_y).v } := by
  simp only [PpuRegisters.increment_scroll_y]
  split
  · rfl
  · split
    · rfl
    · split <;> rfl

theorem loadAndScroll_pres (s : Ppu) :
    PresEq s s.loadAndScroll ∧
      (s.loadAndScroll).r.sprite_overflow = s.r.sprite_overflow := by
  unfold Ppu.loadAndScroll
  have hx := incx_eq s.load_tile.r
  have hy := incy_eq s.load_tile.r
  split
  · rw [hy]
    exact ⟨⟨rfl, rfl, rfl, rfl, rfl, rfl, rfl, rfl⟩, rfl⟩
  · rw [hx]
    exact ⟨⟨rfl, rfl, rfl, rfl, rfl, rfl, rfl, rfl⟩, rfl⟩

theorem draw_pixel_pres (s t : Ppu) (h : s.draw_pixel = some t) :
    PresEq s t ∧ t.r.sprite_overflow = s.r.sprite_overflow := by
  unfold Ppu.draw_pixel at h
  obtain ⟨p, _, h⟩ := Option.bind_eq_some.mp h
  obtain ⟨cv, _, h⟩ := Option.bind_eq_some.mp h
  cases Option.some_inj.mp h
  split <;> exact ⟨⟨rfl, rfl, rfl, rfl, rfl, rfl, rfl, rfl⟩, rfl⟩

theorem backgroundPipeline_pres (s t : Ppu) (h : s.backgroundPipeline = some t) :
    PresEq s t ∧ t.r.sprite_overflow = s.r.sprite_overflow := by
  have hbase : PresEq s s.shiftTile ∧
      (s.shiftTile).r.sprite_overflow = s.r.sprite_overflow :=
    ⟨⟨rfl, rfl, rfl, rfl, rfl, rfl, rfl, rfl⟩, rfl⟩
  unfold Ppu.backgroundPipeline at h
  split at h
  · have hp := fetch_nametable_pres s.shiftTile t h
    exact ⟨presEq_trans s s.shiftTile t hbase.1 hp.1, hp.2.trans hbase.2⟩
  · split at h
    · have hp := fetch_attribute_pres s.shiftTile t h
      exact ⟨presEq_trans s s.shiftTile t hbase.1 hp.1, hp.2.trans hbase.2⟩
    · split at h
      · have hp := fetch_tile_pres s.shiftTile t false h
        exact ⟨presEq_trans s s.shiftTile t hbase.1 hp.1, hp.2.trans hbase.2⟩
      · split at h
        · have hp := fetch_tile_pres s.shiftTile t true h
          exact ⟨presEq_trans s s.shiftTile t hbase.1 hp.1, hp.2.trans hbase.2⟩
        · split at h
          · cases Option.some_inj.mp h
            have hp := loadAndScroll_pres s.shiftTile
            exact ⟨presEq_trans s s.shiftTile _ hbase.1 hp.1, hp.2.trans hbase.2⟩
          · cases Option.some_inj.mp h
            exact hbase

theorem scrollYPhase_pres (s a : Ppu) :
    PresEq a (s.scrollYPhase a) ∧
      (s.scrollYPhase a).r.sprite_overflow = a.r.sprite_overflow := by
  unfold Ppu.scrollYPhase
  split <;> exact ⟨⟨rfl, rfl, rfl, rfl, rfl, rfl, rfl, rfl⟩, rfl⟩

theorem scrollXPhase_pres (s a : Ppu) :
    PresEq a (s.scrollXPhase a) ∧
      (s.scrollXPhase a).r.sprite_overflow = a.r.sprite_overflow := by
  unfold Ppu.scrollXPhase
  split <;> exact ⟨⟨rfl, rfl, rfl, rfl, rfl, rfl, rfl, rfl⟩, rfl⟩

theorem evalSprites_pres (a : Ppu) : PresEq a a.evalSprites :=
  ⟨rfl, rfl, rfl, rfl, rfl, rfl, rfl, rfl⟩

theorem evalPhase_pres (s a : Ppu) : PresEq a (s.evalPhase a) := by
  unfold Ppu.evalPhase
  split
  · exact evalSprites_pres a
  · exact presEq_refl a

theorem renderLine_pres (s t : Ppu) (h : s.renderLine = some t) : PresEq s t := by
  unfold Ppu.renderLine at h
  split at h
  · obtain ⟨a, ha, h⟩ := Option.bind_eq_some.mp h
    obtain ⟨b, hb, heq⟩ := Option.map_eq_some'.mp h
    subst heq
    have h1 : PresEq s a := by
      split at ha
      · exact (draw_pixel_pres s a ha).1
      · cases Option.some_inj.mp ha
        exact presEq_refl _
    have h2 : PresEq a (s.scrollXPhase (s.scrollYPhase a)) :=
      presEq_trans a (s.scrollYPhase a) _ (scrollYPhase_pres s a).1
        (scrollXPhase_pres s (s.scrollYPhase a)).1
    have h3 : PresEq (s.scrollXPhase (s.scrollYPhase a)) b := by
      split at hb
      · exact (backgroundPipeline_pres _ b hb).1
      · cases Option.some_inj.mp hb
        exact presEq_refl _
    exact presEq_trans s b _ (presEq_trans s a b h1 (presEq_trans a _ b h2 h3))
      (evalPhase_pres s b)
  · cases Option.some_inj.mp h
    exact presEq_refl s

theorem renderLine_ovf_ne257 (s t : Ppu) (h : s.renderLine = some t)
    (hc : s.cycle ≠ 257) : t.r.sprite_overflow = s.r.sprite_overflow := by
  unfold Ppu.renderLine at h
  split at h
  · obtain ⟨a, ha, h⟩ := Option.bind_eq_some.mp h
    obtain ⟨b, hb, heq⟩ := Option.map_eq_some'.mp h
    subst heq
    have h1 : a.r.sprite_overflow = s.r.sprite_overflow := by
      split at ha
      · exact (draw_pixel_pres s a ha).2
      · cases Option.some_inj.mp ha
        rfl
    have h2 : (s.scrollXPhase (s.scrollYPhase a)).r.sprite_overflow
        = a.r.sprite_overflow :=
      ((scrollXPhase_pres s (s.scrollYPhase a)).2).trans (scrollYPhase_pres s a).2
    have h3 : b.r.sprite_overflow = (s.scrollXPhase (s.scrollYPhase a)).r.sprite_overflow := by
      split at hb
      · exact (backgroundPipeline_pres _ b hb).2
      · cases Option.some_inj.mp hb
        rfl
    have h4 : (s.evalPhase b).r.sprite_overflow = b.r.sprite_overflow := by
      unfold Ppu.evalPhase
      rw [if_neg hc]
    exact h4.trans (h3.trans (h2.trans h1))
  · cases Option.some_inj.mp h
    rfl

theorem qualifies_congr (s t : Ppu) (hoam : t.primary_oam = s.primary_oam)
    (hsz : t.r.sprite_size = s.r.sprite_size) (hsl : t.scanline = s.scanline) :
    t.qualifies = s.qualifies := by
  funext i
  unfold Ppu.qualifies
  rw [hoam, hsz, hsl]

theorem qualifyCount_congr (s t : Ppu) (hoam : t.primary_oam = s.primary_oam)
    (hsz : t.r.sprite_size = s.r.sprite_size) (hsl : t.scanline = s.scanline) :
    t.qualifyCount = s.qualifyCount := by
  unfold Ppu.qualifyCount
  rw [qualifies_congr s t hoam hsz hsl]

theorem evalLoop_ovf (s : Ppu) (l : List Nat) :
    ∀ acc : EvalAcc, acc.idx % 4 = 0 → acc.idx ≤ 0x20 →
      (evalLoop s l acc).ovf =
        (acc.ovf || ((s.r.show_sprites || s.r.show_background) &&
          decide (8 < acc.idx / 4 + (l.filter s.qualifies).length))) := by
  induction l with
  | nil =>
    intro acc h4 hle
    have hlt : ¬ (8 < acc.idx / 4 + (List.filter s.qualifies []).length) := by
      simp only [List.filter_nil, List.length_nil]
      omega
    rw [decide_eq_false hlt]
    simp [evalLoop]
  | cons i rest ih =>
    intro acc h4 hle
    simp only [evalLoop]
    by_cases hq : s.qualifies i = true
    · rw [if_pos hq]
      by_cases hidx : acc.idx < 0x20
      · rw [if_pos hidx, ih _ (by simp only; omega) (by simp only; omega)]
        dsimp only
        rw [List.filter_cons_of_pos hq]
        simp only [List.length_cons]
        have hdiv : (acc.idx + 4) / 4 = acc.idx / 4 + 1 := by omega
        rw [hdiv, Nat.add_assoc, Nat.add_comm 1 (List.filter s.qualifies rest).length]
      · rw [if_neg hidx, ih _ (by simp only; omega) (by simp only; omega)]
        dsimp only
        have h8 : acc.idx / 4 = 8 := by omega
        rw [List.filter_cons_of_pos hq]
        simp only [List.length_cons, h8]
        rw [decide_eq_true (show
          8 < 8 + ((rest.filter s.qualifies).length + 1) from by omega)]
        cases hR : (s.r.show_sprites || s.r.show_background) with
        | false => simp
        | true => simp
    · have hq2 : ¬ (s.qualifies i = true) := hq
      rw [if_neg hq2, ih _ h4 hle, List.filter_cons_of_neg (by
        cases hval : s.qualifies i
        · exact Bool.false_ne_true
        · exact absurd hval hq)]

theorem evalSprites_ovf (s : Ppu) :
    (s.evalSprites).r.sprite_overflow =
      (s.r.sprite_overflow || ((s.r.show_sprites || s.r.show_background) &&
        decide (8 < s.qualifyCount))) := by
  simp only [Ppu.evalSprites]
  rw [evalLoop_ovf s (List.range 64)
    { soam := fun _ => 0xFF, is0 := s.is_sprite_0, idx := 0, ovf := s.r.sprite_overflow }
    rfl (by dsimp only; omega)]
  simp [Ppu.qualifyCount]

theorem renderLine_ovf_257 (s t : Ppu) (h : s.renderLine = some t) (hc : s.cycle = 257)
    (hgr : s.scanline ≤ 239 ∨ s.scanline = 261) :
    t.r.sprite_overflow = (s.r.sprite_overflow ||
      ((s.r.show_sprites || s.r.show_background) && decide (8 < s.qualifyCount))) := by
  unfold Ppu.renderLine at h
  rw [if_pos hgr, if_neg (fun hcond => by omega)] at h
  simp only [Option.some_bind] at h
  rw [if_neg (fun hcond => by rcases hcond with ⟨_, h2⟩ | ⟨h1, _⟩ <;> omega)] at h
  simp only [Option.map_some'] at h
  cases Option.some_inj.mp h
  set X := s.scrollXPhase (s.scrollYPhase s) with hX
  have hpres : PresEq s X :=
    presEq_trans s (s.scrollYPhase s) X (scrollYPhase_pres s s).1
      (scrollXPhase_pres s (s.scrollYPhase s)).1
  obtain ⟨_, hsl, hoam, _, _, hsz, hsp, hbg⟩ := hpres
  have hovf : X.r.sprite_overflow = s.r.sprite_overflow :=
    ((scrollXPhase_pres s (s.scrollYPhase s)).2).trans (scrollYPhase_pres s s).2
  have hcnt : X.qualifyCount = s.qualifyCount := qualifyCount_congr s X hoam hsz hsl
  unfold Ppu.evalPhase
  rw [if_pos hc, evalSprites_ovf, hovf, hsp, hbg, hcnt]

theorem renderLine_off (s : Ppu) (hn : ¬ (s.scanline ≤ 239 ∨ s.scanline = 261)) :
    s.renderLine = some s := by
  unfold Ppu.renderLine
  rw [if_neg hn]

theorem vblankPhase_at (t : Ppu) (h241 : t.scanline = 241) (h1 : t.cycle = 1) :
    t.vblankPhase =
      ({ t with r := { t.r with v_blank_started := true } }, t.r.nmi_enabled) := by
  unfold Ppu.vblankPhase
  rw [if_pos ⟨h241, h1⟩]

theorem vblankPhase_off (t : Ppu) (hn : ¬ (t.scanline = 241 ∧ t.cycle = 1)) :
    t.vblankPhase = (t, false) := by
  unfold Ppu.vblankPhase
  rw [if_neg hn]

theorem prerenderPhase_at (t : Ppu) (h261 : t.scanline = 261) (h1 : t.cycle = 1) :
    t.prerenderPhase = { t with r := { t.r with
      v_blank_started := false, sprite_0_hit := false, sprite_overflow := false } } := by
  unfold Ppu.prerenderPhase
  rw [if_pos ⟨h261, h1⟩]

theorem prerenderPhase_off (t : Ppu) (hn : ¬ (t.scanline = 261 ∧ t.cycle = 1)) :
    t.prerenderPhase = t := by
  unfold Ppu.prerenderPhase
  rw [if_neg hn]

theorem post_phases_ovf (t : Ppu) (hn : ¬ (t.scanline = 261 ∧ t.cycle = 1)) :
    ((t.vblankPhase).1.prerenderPhase).r.sprite_overflow = t.r.sprite_overflow := by
  unfold Ppu.vblankPhase
  split
  · dsimp only
    rw [prerenderPhase_off _ (by intro hcond; dsimp only at hcond; exact hn hcond)]
  · dsimp only
    rw [prerenderPhase_off t hn]

/-- C7: a step landing on scanline 241, cycle 1 sets v_blank_started and
raises NMI exactly when nmi_enabled holds; a step landing on scanline 261,
cycle 1 clears v_blank_started, sprite_0_hit and sprite_overflow; a step
landing anywhere else leaves v_blank_started unchanged. -/
theorem c7_vblank_boundary (s s2 : Ppu) (nmi : Bool) (h : s.step = some (s2, nmi)) :
    ((s.tick).scanline = 241 ∧ (s.tick).cycle = 1 →
      s2.r.v_blank_started = true ∧ nmi = s.r.nmi_enabled) ∧
    ((s.tick).scanline = 261 ∧ (s.tick).cycle = 1 →
      s2.r.v_blank_started = false ∧ s2.r.sprite_0_hit = false ∧
        s2.r.sprite_overflow = false) ∧
    (¬ ((s.tick).scanline = 241 ∧ (s.tick).cycle = 1) →
      ¬ ((s.tick).scanline = 261 ∧ (s.tick).cycle = 1) →
      s2.r.v_blank_started = s.r.v_blank_started) := by
  unfold Ppu.step at h
  obtain ⟨t, ht, h⟩ := Option.bind_eq_some.mp h
  have hpair := Option.some_inj.mp h
  have hs2 : ((t.vblankPhase).1.prerenderPhase) = s2 := congrArg Prod.fst hpair
  have hnmi : (t.vblankPhase).2 = nmi := congrArg Prod.snd hpair
  obtain ⟨hcy, hsl, hoam, hvb, hne, hsz, hsp, hbg⟩ := renderLine_pres _ t ht
  refine ⟨?_, ?_, ?_⟩
  · rintro ⟨h241, h1⟩
    have ht241 : t.scanline = 241 := hsl.trans h241
    have ht1 : t.cycle = 1 := hcy.trans h1
    rw [vblankPhase_at t ht241 ht1] at hs2 hnmi
    dsimp only at hs2 hnmi
    rw [prerenderPhase_off _
      (by intro hcond; dsimp only at hcond; omega)] at hs2
    constructor
    · rw [← hs2]
    · rw [← hnmi, hne, tick_r s]
  · rintro ⟨h261, h1⟩
    have ht261 : t.scanline = 261 := hsl.trans h261
    have ht1 : t.cycle = 1 := hcy.trans h1
    rw [vblankPhase_off t (by intro hcond; omega)] at hs2
    dsimp only at hs2
    rw [prerenderPhase_at t ht261 ht1] at hs2
    rw [← hs2]
    exact ⟨rfl, rfl, rfl⟩
  · intro hn241 hn261
    have htn241 : ¬ (t.scanline = 241 ∧ t.cycle = 1) := by
      intro hcond
      exact hn241 ⟨hsl.symm.trans hcond.1, hcy.symm.trans hcond.2⟩
    have htn261 : ¬ (t.scanline = 261 ∧ t.cycle = 1) := by
      intro hcond
      exact hn261 ⟨hsl.symm.trans hcond.1, hcy.symm.trans hcond.2⟩
    rw [vblankPhase_off t htn241] at hs2
    dsimp only at hs2
    rw [prerenderPhase_off t htn261] at hs2
    rw [← hs2, hvb, tick_r s]

/-- C7 witness: stepping the fresh PPU placed just before (241, 1) sets
the VBlank flag, with the NMI line reflecting nmi_enabled = false. -/
theorem c7_vblank_boundary_witness :
    c7w2.1.r.v_blank_started = true ∧ c7w2.2 = c7w.r.nmi_enabled :=
  (c7_vblank_boundary c7w c7w2.1 c7w2.2 rfl).1 ⟨rfl, rfl⟩

/-- C8: a step landing on cycle 257 of a visible or pre-render scanline
updates sprite_overflow to its old value OR-ed with (rendering enabled AND
at least 9 sprites qualify on the landed scanline); a step landing on
(261, 1) clears it; any other step leaves it unchanged.  Together these
state that the flag is set exactly when a ninth qualifying sprite is found
during the batched evaluation while rendering is enabled. -/
theorem c8_sprite_overflow (s s2 : Ppu) (nmi : Bool) (h : s.step = some (s2, nmi)) :
    ((s.tick).cycle = 257 ∧ ((s.tick).scanline ≤ 239 ∨ (s.tick).scanline = 261) →
      s2.r.sprite_overflow = (s.r.sprite_overflow ||
        ((s.r.show_sprites || s.r.show_background) &&
          decide (8 < (s.tick).qualifyCount)))) ∧
    ((s.tick).scanline = 261 ∧ (s.tick).cycle = 1 → s2.r.sprite_overflow = false) ∧
    (¬ ((s.tick).cycle = 257 ∧ ((s.tick).scanline ≤ 239 ∨ (s.tick).scanline = 261)) →
      ¬ ((s.tick).scanline = 261 ∧ (s.tick).cycle = 1) →
      s2.r.sprite_overflow = s.r.sprite_overflow) := by
  unfold Ppu.step at h
  obtain ⟨t, ht, h⟩ := Option.bind_eq_some.mp h
  have hpair := Option.some_inj.mp h
  have hs2 : ((t.vblankPhase).1.prerenderPhase) = s2 := congrArg Prod.fst hpair
  obtain ⟨hcy, hsl, hoam, hvb, hne, hsz, hsp, hbg⟩ := renderLine_pres _ t ht
  refine ⟨?_, ?_, ?_⟩
  · rintro ⟨h257, hgr⟩
    have heq := renderLine_ovf_257 (s.tick) t ht h257 hgr
    rw [tick_r s] at heq
    have htn261 : ¬ (t.scanline = 261 ∧ t.cycle = 1) := by
      intro hcond
      have := hcy.symm.trans hcond.2
      omega
    rw [← hs2, post_phases_ovf t htn261, heq]
  · rintro ⟨h261, h1⟩
    have ht261 : t.scanline = 261 := hsl.trans h261
    have ht1 : t.cycle = 1 := hcy.trans h1
    rw [vblankPhase_off t (by intro hcond; omega)] at hs2
    dsimp only at hs2
    rw [prerenderPhase_at t ht261 ht1] at hs2
    rw [← hs2]
  · intro hn257 hn261
    have htn261 : ¬ (t.scanline = 261 ∧ t.cycle = 1) := by
      intro hcond
      exact hn261 ⟨hsl.symm.trans hcond.1, hcy.symm.trans hcond.2⟩
    have hovf : t.r.sprite_overflow = s.r.sprite_overflow := by
      by_cases hc257 : (s.tick).cycle = 257
      · have hng : ¬ ((s.tick).scanline ≤ 239 ∨ (s.tick).scanline = 261) :=
          fun hgr => hn257 ⟨hc257, hgr⟩
        rw [renderLine_off (s.tick) hng] at ht
        have := Option.some_inj.mp ht
        rw [← this, tick_r s]
      · have := renderLine_ovf_ne257 (s.tick) t ht hc257
        rw [tick_r s] at this
        exact this
    rw [← hs2, post_phases_ovf t htn261, hovf]

/-- C8 witness: stepping the fresh PPU into cycle 257 of scanline 0 runs
the batched evaluation; with rendering disabled the flag stays clear even
though more than eight all-zero sprites qualify. -/
theorem c8_sprite_overflow_witness :
    c8w2.1.r.sprite_overflow = (c8w.r.sprite_overflow ||
      ((c8w.r.show_sprites || c8w.r.show_background) &&
        decide (8 < (c8w.tick).qualifyCount))) :=
  (c8_sprite_overflow c8w c8w2.1 c8w2.2 rfl).1 ⟨rfl, Or.inl (by decide)⟩

end Neso